import Mathlib

/-!
Verification of the runit/daemontools supervision client `supervise.py`
(module constants, `Service.__init__`, the command methods and `_signal`,
and the status-record decoder `Service.status`), as a shallow embedding.

Bytes are `Nat` values below 256; a status buffer is a `List Nat`.  The two
I/O inputs of `Service.status` — the bytes read from the status file and the
outcome of probing the sibling `down` marker file — are passed explicitly,
as is the current wall-clock time.  Fallible Python code (struct errors,
unbound locals, IndexError/TypeError in the constructor) is modelled with
`Except`.
-/

/-- `DEFAULT_EPOCH = 4611686018427387914L` (supervise.py line 102): the fixed
epoch bias the supervisor adds to Unix seconds (TAI64 label offset). -/
def DEFAULT_EPOCH : Nat := 4611686018427387914

/-- `STATUS_DOWN = 0x00` -/
def STATUS_DOWN : Nat := 0x00
/-- `STATUS_UP = 0x01` -/
def STATUS_UP : Nat := 0x01
/-- `STATUS_FINISH = 0x02` -/
def STATUS_FINISH : Nat := 0x02

/-- `NORMALLY_DOWN = 0x00` -/
def NORMALLY_DOWN : Nat := 0x00
/-- `NORMALLY_UP = 0x01` -/
def NORMALLY_UP : Nat := 0x01
/-- `PAUSED = 0x02` -/
def PAUSED : Nat := 0x02
/-- `WANT_UP = 0x11` -/
def WANT_UP : Nat := 0x11
/-- `WANT_DOWN = 0x10` -/
def WANT_DOWN : Nat := 0x10
/-- `GOT_TERM = 0x09` -/
def GOT_TERM : Nat := 0x09

/-- Module initialisation of `DEFAULT_SERVICE_DIR` (supervise.py lines 94-100):
the name is first bound to `"/var/service"`, then the `try` block runs
`import os` (which always succeeds, so the `except` clause is dead) and
rebinds it to `os.getenv("SERVICE_DIR")`.  `os.getenv` with a single
argument returns `None` when the variable is unset, so the initial value
`"/var/service"` is unconditionally overwritten by the environment lookup.
The process environment is passed as a partial map `String -> Option String`. -/
def DEFAULT_SERVICE_DIR (env : String → Option String) : Option String :=
  let d : Option String := some "/var/service"
  let d := env "SERVICE_DIR"
  d

/-- Errors `Service.__init__` can raise: `service[0]` on an empty string
raises `IndexError`; `None + "/" + service` (when `DEFAULT_SERVICE_DIR` is
`None`) raises `TypeError`. -/
inductive InitError where
  | indexError : InitError
  | typeErrorNoneBase : InitError
deriving DecidableEq, Repr

/-- The state a constructed `Service` object carries: the service directory
`self.service` and the two derived paths `self._control` and `self._status`. -/
structure ServiceHandle where
  service : String
  control : String
  statusFile : String
deriving DecidableEq, Repr

/-- `Service.__init__` (supervise.py lines 187-206), path part: if
`service[0] == "/"` the argument is used verbatim, otherwise it is joined as
`DEFAULT_SERVICE_DIR + "/" + service`; then `_control` and `_status` are the
service directory plus `/supervise/control` and `/supervise/status`.
On the empty string `service[0]` raises `IndexError`; joining a relative
name under a `None` base raises `TypeError`. -/
def Service.init (base : Option String) (service : String) :
    Except InitError ServiceHandle :=
  match service.data with
  | [] => .error .indexError
  | c :: _ =>
    if c = '/' then
      .ok ⟨service, service ++ "/supervise/control",
           service ++ "/supervise/status"⟩
    else
      match base with
      | none => .error .typeErrorNoneBase
      | some b =>
        let p := b ++ "/" ++ service
        .ok ⟨p, p ++ "/supervise/control", p ++ "/supervise/status"⟩

/-- The named command operations of `Service` (supervise.py lines 208-269). -/
inductive Command where
  | start | stop | pause | alarm | terminate | exit | kill
  | user1 | user2 | quit | interrupt | hangup | cont | once
deriving DecidableEq, Repr

/-- The one-character string each named method passes to `self._signal`
(supervise.py lines 208-269). -/
def commandSignal : Command → String
  | .start => "u"
  | .stop => "d"
  | .pause => "p"
  | .alarm => "a"
  | .terminate => "t"
  | .exit => "x"
  | .kill => "k"
  | .user1 => "1"
  | .user2 => "2"
  | .quit => "q"
  | .interrupt => "i"
  | .hangup => "h"
  | .cont => "c"
  | .once => "o"

/-- `Service._signal` (supervise.py lines 271-274): opens the control file,
performs a single `f.write(signal)` of the given string, and closes it.  The
observable effect is the list of write events, each a byte sequence. -/
def signalWrites (sig : String) : List (List Nat) :=
  [sig.data.map Char.toNat]

/-- The write events produced by invoking a named command method: each
method is one call to `_signal` with its one-character string. -/
def commandWrites (c : Command) : List (List Nat) :=
  signalWrites (commandSignal c)

/-- Alias set in `__init__`: `self.up = self.start`. -/
def Service.up : Command := .start
/-- Alias set in `__init__`: `self.down = self.stop`. -/
def Service.down : Command := .stop
/-- Alias set in `__init__`: `self.hup = self.hangup`. -/
def Service.hup : Command := .hangup

/-- Outcome of `open(self.service + "/down","r")` in `Service.status`
(supervise.py lines 300-305): the open either succeeds or raises `IOError`
with some errno (2 = ENOENT for a missing file, 13 = EACCES for a
permission error, ...). -/
inductive DownProbe where
  | opened : DownProbe
  | ioError (errno : Nat) : DownProbe
deriving DecidableEq, Repr

/-- The `normallyup` flag after the probe (supervise.py lines 295, 300-305):
initialised to 0; the `except IOError` clause catches EVERY `IOError`
(the code's own TODO notes that ENOENT is not distinguished from other
errors) and sets it to 1; a successful open leaves it 0. -/
def normallyupOf : DownProbe → Nat
  | .opened => 0
  | .ioError _ => 1

/-- Python 2 equality between an `int` and a `str` (the comparisons
`s[17] == 'u'` and `s[17] == 'd'` at supervise.py lines 323-324, where
`s[17]` is an unpacked integer byte): objects of these two built-in types
never compare equal, so the result is always `False`. -/
def pyIntEqStr (_n : Nat) (_c : String) : Bool := false

/-- Python truthiness of the `pid` variable at the point the action rules
run (supervise.py lines 319-325): by then `pid` is either `None` (falsy) or
a nonzero `int` (truthy); `0` would also be falsy. -/
def pyTruthy : Option Nat → Bool
  | none => false
  | some n => n != 0

/-- The decoded status value object: the four keyword fields
`ServiceStatus(status=, pid=, action=, uptime=)` built at supervise.py
lines 346-347 (`time` is importable, so the line-344 fallback without
`uptime` is dead code). -/
structure ServiceStatus where
  status : Nat
  pid : Option Nat
  action : Option Nat
  uptime : Nat
deriving DecidableEq, Repr

/-- Errors `Service.status` can raise while decoding:
`struct.error` from `unpack_from` when the buffer holds fewer than 20
bytes, and `UnboundLocalError` when the local `status` is read at the
return statement without ever having been assigned. -/
inductive StatusError where
  | structError : StatusError
  | unboundLocalStatus : StatusError
deriving DecidableEq, Repr

/-- Pid accumulation (supervise.py lines 307-310):
`pid = s[15]; pid <<= 8; pid += s[14]; pid <<= 8; pid += s[13];
pid <<= 8; pid += s[12]`. -/
def record_pid (s : List Nat) : Nat :=
  ((s.getD 15 0 * 256 + s.getD 14 0) * 256 + s.getD 13 0) * 256 + s.getD 12 0

/-- Timestamp accumulation (supervise.py lines 333-340): big-endian
64-bit value of bytes 0-7. -/
def record_seconds (s : List Nat) : Nat :=
  ((((((s.getD 0 0 * 256 + s.getD 1 0) * 256 + s.getD 2 0) * 256
      + s.getD 3 0) * 256 + s.getD 4 0) * 256 + s.getD 5 0) * 256
      + s.getD 6 0) * 256 + s.getD 7 0

/-- The `status` local after lines 312-317: inside `if pid:` the code runs
`if s[19] == 1: status = STATUS_UP` and `if s[19] == 2: status =
STATUS_FINISH` (the two conditions are mutually exclusive, so sequential
assignment and this nested conditional agree); for any other byte value
`status` stays unassigned (`none`).  In the `else` branch
`status = STATUS_DOWN`. -/
def statusOf (pid : Nat) (b19 : Nat) : Option Nat :=
  if pid ≠ 0 then
    if b19 = 2 then some STATUS_FINISH
    else if b19 = 1 then some STATUS_UP
    else none
  else
    some STATUS_DOWN

/-- The `pid` variable after lines 312-317: rebound to `None` exactly when
the accumulated pid is 0 (falsy), otherwise kept. -/
def pidOptOf (pid : Nat) : Option Nat :=
  if pid = 0 then none else some pid

/-- The action computation (supervise.py lines 319-325): `action = None`
followed by six `if` statements in source order, each overwriting `action`
when its condition holds. -/
def actionOf (pid : Option Nat) (normallyup b16 b17 b18 : Nat) :
    Option Nat :=
  let a : Option Nat := none
  let a := if pyTruthy pid && (normallyup == 0) then some NORMALLY_DOWN else a
  let a := if !pyTruthy pid && (normallyup != 0) then some NORMALLY_UP else a
  let a := if pyTruthy pid && (b16 != 0) then some PAUSED else a
  let a := if !pyTruthy pid && pyIntEqStr b17 "u" then some WANT_UP else a
  let a := if pyTruthy pid && pyIntEqStr b17 "d" then some WANT_DOWN else a
  let a := if pyTruthy pid && (b18 != 0) then some GOT_TERM else a
  a

/-- The six action rules as an ordered (condition, value) list, in the
source order of lines 320-325. -/
def actionRulesList (pid : Option Nat) (normallyup b16 b17 b18 : Nat) :
    List (Bool × Nat) :=
  [ (pyTruthy pid && (normallyup == 0), NORMALLY_DOWN),
    (!pyTruthy pid && (normallyup != 0), NORMALLY_UP),
    (pyTruthy pid && (b16 != 0), PAUSED),
    (!pyTruthy pid && pyIntEqStr b17 "u", WANT_UP),
    (pyTruthy pid && pyIntEqStr b17 "d", WANT_DOWN),
    (pyTruthy pid && (b18 != 0), GOT_TERM) ]

/-- Applying an ordered rule list: start from `none` and let every rule
whose condition holds overwrite the accumulator, so the LAST matching rule
wins. -/
def applyRulesInOrder (rules : List (Bool × Nat)) : Option Nat :=
  rules.foldl (fun a cv => if cv.1 then some cv.2 else a) none

/-- The uptime computation (supervise.py lines 330, 342):
`n = long(time.time()) + DEFAULT_EPOCH` and `x = 0 if n < x else (n - x)`
where `n` is inlined and `x` is the record's seconds value. -/
def uptimeOf (now secs : Nat) : Nat :=
  if now + DEFAULT_EPOCH < secs then 0 else now + DEFAULT_EPOCH - secs

/-- `Service.status` (supervise.py lines 276-347) as a function of its
three inputs: the byte buffer obtained from `open(self._status,"rb")
.read(20)`, the outcome of probing the `down` marker, and the current
wall-clock seconds `time.time()`.

`struct.Struct("20B").unpack_from(s)` raises `struct.error` unless the
buffer holds at least 20 bytes, and yields its first 20 bytes; the field
reads below only touch indices 0-19, so `buf.getD i 0` under the length
guard is exactly `s[i]`.  When `pid` is nonzero and byte 19 is neither 1
nor 2 the local `status` is never assigned and the return statement raises
`UnboundLocalError`. -/
def Service.status (buf : List Nat) (probe : DownProbe) (now : Nat) :
    Except StatusError ServiceStatus :=
  if buf.length < 20 then .error .structError
  else
    match statusOf (record_pid buf) (buf.getD 19 0) with
    | none => .error .unboundLocalStatus
    | some st =>
      .ok ⟨st, pidOptOf (record_pid buf),
           actionOf (pidOptOf (record_pid buf)) (normallyupOf probe)
             (buf.getD 16 0) (buf.getD 17 0) (buf.getD 18 0),
           uptimeOf now (record_seconds buf)⟩

/-! ## Helper lemmas -/

/-- Inversion: whenever `Service.status` returns a record, the buffer passed
the length check and every field of the record is the corresponding helper
applied to the inputs. -/
theorem status_ok_inv (buf : List Nat) (probe : DownProbe) (now : Nat)
    (r : ServiceStatus) (h : Service.status buf probe now = .ok r) :
    ¬ buf.length < 20 ∧
    statusOf (record_pid buf) (buf.getD 19 0) = some r.status ∧
    r.pid = pidOptOf (record_pid buf) ∧
    r.action = actionOf r.pid (normallyupOf probe) (buf.getD 16 0)
        (buf.getD 17 0) (buf.getD 18 0) ∧
    r.uptime = uptimeOf now (record_seconds buf) := by
  unfold Service.status at h
  split at h
  · simp at h
  · next hlen =>
    split at h
    · simp at h
    · next st hst =>
      cases r
      simp only [Except.ok.injEq, ServiceStatus.mk.injEq] at h
      obtain ⟨h1, h2, h3, h4⟩ := h
      subst h1; subst h2; subst h3; subst h4
      exact ⟨hlen, hst, rfl, rfl, rfl⟩

/-- Forward direction: a long-enough buffer whose status local gets
assigned decodes successfully to the record built from the helpers. -/
theorem status_ok_of (buf : List Nat) (probe : DownProbe) (now : Nat)
    (hlen : ¬ buf.length < 20) (st : Nat)
    (hst : statusOf (record_pid buf) (buf.getD 19 0) = some st) :
    Service.status buf probe now =
      .ok ⟨st, pidOptOf (record_pid buf),
           actionOf (pidOptOf (record_pid buf)) (normallyupOf probe)
             (buf.getD 16 0) (buf.getD 17 0) (buf.getD 18 0),
           uptimeOf now (record_seconds buf)⟩ := by
  unfold Service.status
  rw [if_neg hlen, hst]

/-- A long-enough buffer with nonzero pid and a byte 19 that is neither 1
nor 2 makes the decoder fail on the unassigned `status` local. -/
theorem status_unbound_of (buf : List Nat) (probe : DownProbe) (now : Nat)
    (hlen : ¬ buf.length < 20) (hpid : record_pid buf ≠ 0)
    (h1 : buf.getD 19 0 ≠ 1) (h2 : buf.getD 19 0 ≠ 2) :
    Service.status buf probe now = .error .unboundLocalStatus := by
  unfold Service.status
  rw [if_neg hlen]
  have hst : statusOf (record_pid buf) (buf.getD 19 0) = none := by
    unfold statusOf
    rw [if_pos hpid, if_neg h2, if_neg h1]
  rw [hst]

/-- The uptime clamp as a max over the integers. -/
theorem uptimeOf_eq_max (now secs : Nat) :
    (uptimeOf now secs : ℤ) =
      max 0 ((now : ℤ) + (DEFAULT_EPOCH : ℤ) - (secs : ℤ)) := by
  unfold uptimeOf
  rcases le_or_lt secs (now + DEFAULT_EPOCH) with h | h
  · rw [if_neg (not_lt.mpr h), max_eq_right (by omega)]
    omega
  · rw [if_pos h, max_eq_left (by omega)]
    simp

deriving instance DecidableEq for Except

/-! ## Concrete buffers used in the claims -/

/-- A 20-byte buffer, all zero except bytes 15 and 19 set to 1: offsets
12-15 hold 0x00,0x00,0x00,0x01 and the line-313 condition holds. -/
def pidProbeBuf : List Nat :=
  [0,0,0,0,0,0,0,0,0,0,0,0, 0,0,0,1, 0,0,0,1]

/-- A 20-byte buffer, all zero except bytes 12 and 19 set to 1: offsets
12-15 hold 0x01,0x00,0x00,0x00. -/
def pidOneBuf : List Nat :=
  [0,0,0,0,0,0,0,0,0,0,0,0, 1,0,0,0, 0,0,0,1]

/-- A 20-byte buffer with a nonzero pid (byte 12 = 1) and byte 19 = 0. -/
def upNoFlagBuf : List Nat :=
  [0,0,0,0,0,0,0,0,0,0,0,0, 1,0,0,0, 0,0,0,0]

/-- A 20-byte buffer with pid 0 and byte 17 = 117 (ASCII `u`). -/
def wantUpBuf : List Nat :=
  [0,0,0,0,0,0,0,0,0,0,0,0, 0,0,0,0, 0,117,0,0]

/-- A 20-byte buffer with pid 1, byte 17 = 100 (ASCII `d`), byte 19 = 1. -/
def wantDownBuf : List Nat :=
  [0,0,0,0,0,0,0,0,0,0,0,0, 1,0,0,0, 0,100,0,1]

/-- A 20-byte buffer with pid 1, paused byte 16 = 1, byte 19 = 1. -/
def pausedBuf : List Nat :=
  [0,0,0,0,0,0,0,0,0,0,0,0, 1,0,0,0, 1,0,0,1]

/-- An environment in which SERVICE_DIR is unset. -/
def emptyEnv : String → Option String := fun _ => none

/-- An environment in which SERVICE_DIR is set to /var/service. -/
def varServiceEnv : String → Option String :=
  fun k => if k = "SERVICE_DIR" then some "/var/service" else none

/-! ## Claims -/

/-- C1 (counterexample): contrary to the claim, an 18-byte buffer does not
decode successfully: `struct.Struct("20B").unpack_from` needs at least 20
bytes, so the decoder fails with a struct error on the all-zero 18-byte
buffer, whose field values are otherwise valid (pid 0, a DOWN record). -/
theorem c1_length_counterexample :
    (List.replicate 18 0).length = 18 ∧
    Service.status (List.replicate 18 0) DownProbe.opened 0 =
      .error .structError := by decide

/-- C1 (amended): decoding fails with the malformed-record (struct) error
if and only if the buffer holds fewer than 20 bytes; 18-byte buffers are
rejected together with lengths 0, 17 and 19, while any buffer of length at
least 20 passes the length check (the status read caps the buffer at 20
bytes, so in practice exactly the 20-byte form decodes). -/
theorem c1_length_check (buf : List Nat) (probe : DownProbe) (now : Nat) :
    Service.status buf probe now = .error .structError ↔
      buf.length < 20 := by
  constructor
  · intro h
    by_contra hn
    unfold Service.status at h
    rw [if_neg hn] at h
    split at h
    · simp at h
    · simp at h
  · intro h
    unfold Service.status
    rw [if_pos h]

/-- C2 (counterexample): contrary to the claim, a record whose bytes at
offsets 12,13,14,15 are 0x00,0x00,0x00,0x01 decodes to pid 16777216, not
pid 1: the accumulation starts from byte 15 and shifts it up. -/
theorem c2_pid_counterexample :
    (Except.map ServiceStatus.pid
        (Service.status pidProbeBuf DownProbe.opened 0) =
      .ok (some 16777216)) ∧ (16777216 : Nat) ≠ 1 := by decide

/-- C2 (amended): the pid of every decoded record is the byte-reversed
(little-endian) value of offsets 12-15, namely
`b15 * 2^24 + b14 * 2^16 + b13 * 2^8 + b12` (wrapped to `None` when zero);
so bytes 0x00,0x00,0x00,0x01 at offsets 12-15 decode to pid 16777216, and
pid 1 is encoded as 0x01,0x00,0x00,0x00. -/
theorem c2_pid_extraction (buf : List Nat) (probe : DownProbe) (now : Nat)
    (r : ServiceStatus) (h : Service.status buf probe now = .ok r) :
    r.pid = pidOptOf (buf.getD 15 0 * 2 ^ 24 + buf.getD 14 0 * 2 ^ 16 +
              buf.getD 13 0 * 2 ^ 8 + buf.getD 12 0) := by
  have hp := (status_ok_inv buf probe now r h).2.2.1
  have harith : record_pid buf = buf.getD 15 0 * 2 ^ 24 +
      buf.getD 14 0 * 2 ^ 16 + buf.getD 13 0 * 2 ^ 8 + buf.getD 12 0 := by
    unfold record_pid
    ring
  rw [hp, harith]

/-- C2 (witness): the amended pid-extraction theorem applied to
`pidProbeBuf`, where the formula yields 16777216. -/
theorem c2_pid_extraction_witness :
    Service.status pidProbeBuf DownProbe.opened 0 =
      .ok ⟨STATUS_UP, some 16777216, some NORMALLY_DOWN, DEFAULT_EPOCH⟩ ∧
    (⟨STATUS_UP, some 16777216, some NORMALLY_DOWN, DEFAULT_EPOCH⟩ :
        ServiceStatus).pid =
      pidOptOf (pidProbeBuf.getD 15 0 * 2 ^ 24 + pidProbeBuf.getD 14 0 * 2 ^ 16 +
        pidProbeBuf.getD 13 0 * 2 ^ 8 + pidProbeBuf.getD 12 0) := by
  have h : Service.status pidProbeBuf DownProbe.opened 0 =
      .ok ⟨STATUS_UP, some 16777216, some NORMALLY_DOWN, DEFAULT_EPOCH⟩ := by
    decide
  exact ⟨h, c2_pid_extraction pidProbeBuf DownProbe.opened 0 _ h⟩

/-- C3 (counterexample): contrary to the claim, a record with a nonzero pid
(byte 12 = 1, so pid = 1) and byte 19 equal to 0 (in particular not the
finish value 2) does not decode to status UP: the local `status` is never
assigned and the decoder fails with an unbound-local error. -/
theorem c3_status_counterexample :
    record_pid upNoFlagBuf = 1 ∧ upNoFlagBuf.getD 19 0 ≠ 2 ∧
    Service.status upNoFlagBuf DownProbe.opened 0 =
      .error .unboundLocalStatus := by decide

/-- C3 (amended): for every buffer passing the length check, a zero pid
yields status DOWN with an absent pid; a nonzero pid yields status UP when
byte 19 equals 1 and FINISH when byte 19 equals 2; for a nonzero pid with
any other byte-19 value the decoder fails on the unassigned `status`
local. -/
theorem c3_status_inference (buf : List Nat) (probe : DownProbe)
    (now : Nat) (h : ¬ buf.length < 20) :
    (record_pid buf = 0 →
      Except.map ServiceStatus.status (Service.status buf probe now) =
        .ok STATUS_DOWN ∧
      Except.map ServiceStatus.pid (Service.status buf probe now) =
        .ok none) ∧
    (record_pid buf ≠ 0 → buf.getD 19 0 = 1 →
      Except.map ServiceStatus.status (Service.status buf probe now) =
        .ok STATUS_UP) ∧
    (record_pid buf ≠ 0 → buf.getD 19 0 = 2 →
      Except.map ServiceStatus.status (Service.status buf probe now) =
        .ok STATUS_FINISH) ∧
    (record_pid buf ≠ 0 → buf.getD 19 0 ≠ 1 → buf.getD 19 0 ≠ 2 →
      Service.status buf probe now = .error .unboundLocalStatus) := by
  refine ⟨?_, ?_, ?_, ?_⟩
  · intro hpid
    have hst : statusOf (record_pid buf) (buf.getD 19 0) =
        some STATUS_DOWN := by
      unfold statusOf
      rw [if_neg (by simpa using hpid)]
    rw [status_ok_of buf probe now h STATUS_DOWN hst]
    constructor
    · rfl
    · rw [hpid]
      rfl
  · intro hpid h19
    have hst : statusOf (record_pid buf) (buf.getD 19 0) =
        some STATUS_UP := by
      unfold statusOf
      rw [if_pos hpid, h19]
      rfl
    rw [status_ok_of buf probe now h STATUS_UP hst]
    rfl
  · intro hpid h19
    have hst : statusOf (record_pid buf) (buf.getD 19 0) =
        some STATUS_FINISH := by
      unfold statusOf
      rw [if_pos hpid, h19]
      rfl
    rw [status_ok_of buf probe now h STATUS_FINISH hst]
    rfl
  · intro hpid h1 h2
    exact status_unbound_of buf probe now h hpid h1 h2

/-- C3 (witness): the amended status-inference theorem applied to the
all-zero 20-byte buffer (pid 0, a DOWN record with no pid). -/
theorem c3_status_inference_witness :
    ¬ (List.replicate 20 0).length < 20 ∧
    Except.map ServiceStatus.status
        (Service.status (List.replicate 20 0) DownProbe.opened 0) =
      .ok STATUS_DOWN ∧
    Except.map ServiceStatus.pid
        (Service.status (List.replicate 20 0) DownProbe.opened 0) =
      .ok none := by
  refine ⟨by decide, ?_, ?_⟩
  · exact ((c3_status_inference (List.replicate 20 0) DownProbe.opened 0
      (by decide)).1 (by decide)).1
  · exact ((c3_status_inference (List.replicate 20 0) DownProbe.opened 0
      (by decide)).1 (by decide)).2

/-- C4 (code slip, evaluated): with SERVICE_DIR unset the module-level
default becomes `None` instead of the intended `"/var/service"` (os.getenv
without a fallback), so constructing a Service from a relative name raises
TypeError; the intended default is only obtained when SERVICE_DIR is set
to /var/service explicitly, and absolute paths are used verbatim. -/
theorem c4_default_dir_bug :
    DEFAULT_SERVICE_DIR emptyEnv = none ∧
    Service.init (DEFAULT_SERVICE_DIR emptyEnv) "test" =
      .error .typeErrorNoneBase ∧
    Service.init (DEFAULT_SERVICE_DIR varServiceEnv) "test" =
      .ok ⟨"/var/service/test", "/var/service/test/supervise/control",
           "/var/service/test/supervise/status"⟩ ∧
    Service.init (DEFAULT_SERVICE_DIR emptyEnv) "/srv/web" =
      .ok ⟨"/srv/web", "/srv/web/supervise/control",
           "/srv/web/supervise/status"⟩ := by decide

/-- C5 (code slip, evaluated): byte 17 holding ASCII `u` (117) with an
absent pid does not produce WANT_UP, because `s[17] == 'u'` compares an
int with a str and is always false in Python 2; the action stays
NORMALLY_UP.  Dually, a present pid with byte 17 holding ASCII `d` (100)
keeps NORMALLY_DOWN instead of WANT_DOWN. -/
theorem c5_want_flag_bug :
    pyIntEqStr 117 "u" = false ∧ pyIntEqStr 100 "d" = false ∧
    wantUpBuf.getD 17 0 = 117 ∧
    Service.status wantUpBuf (DownProbe.ioError 2) 0 =
      .ok ⟨STATUS_DOWN, none, some NORMALLY_UP, DEFAULT_EPOCH⟩ ∧
    NORMALLY_UP ≠ WANT_UP ∧
    wantDownBuf.getD 17 0 = 100 ∧
    Service.status wantDownBuf DownProbe.opened 0 =
      .ok ⟨STATUS_UP, some 1, some NORMALLY_DOWN, DEFAULT_EPOCH⟩ ∧
    NORMALLY_DOWN ≠ WANT_DOWN := by decide

/-- C6 (code slip, evaluated): probing the `down` marker, a missing file
(IOError ENOENT, errno 2) indeed yields normallyup = 1; but a permission
failure (IOError EACCES, errno 13) on the same probe is caught by the same
blanket `except IOError` instead of propagating: decoding succeeds and
treats the service as normally up, exactly as if the marker were absent. -/
theorem c6_probe_bug :
    normallyupOf (DownProbe.ioError 2) = 1 ∧
    normallyupOf (DownProbe.ioError 13) = 1 ∧
    normallyupOf DownProbe.opened = 0 ∧
    Service.status (List.replicate 20 0) (DownProbe.ioError 13) 0 =
      .ok ⟨STATUS_DOWN, none, some NORMALLY_UP, DEFAULT_EPOCH⟩ := by decide

/-- C7: the action computed by the decoder is exactly the result of
applying the six rules (NORMALLY_DOWN, NORMALLY_UP, PAUSED, WANT_UP,
WANT_DOWN, GOT_TERM) in this fixed source order with every later matching
rule overwriting the earlier result; in particular a record with a present
pid, no `down` marker (NORMALLY_DOWN condition) and the paused flag set
(PAUSED condition) resolves to PAUSED. -/
theorem c7_action_precedence :
    (∀ (pid : Option Nat) (normallyup b16 b17 b18 : Nat),
      actionOf pid normallyup b16 b17 b18 =
        applyRulesInOrder (actionRulesList pid normallyup b16 b17 b18)) ∧
    pyTruthy (pidOptOf (record_pid pausedBuf)) = true ∧
    normallyupOf DownProbe.opened = 0 ∧
    pausedBuf.getD 16 0 ≠ 0 ∧
    Service.status pausedBuf DownProbe.opened 0 =
      .ok ⟨STATUS_UP, some 1, some PAUSED, DEFAULT_EPOCH⟩ := by
  refine ⟨fun pid normallyup b16 b17 b18 => rfl, by decide, by decide,
    by decide, by decide⟩

/-- C8: for every successfully decoded record, the uptime equals
max(0, now + DEFAULT_EPOCH - record_seconds) over the integers, and a
record whose embedded seconds exceed the biased current time yields
uptime exactly 0. -/
theorem c8_uptime_clamp (buf : List Nat) (probe : DownProbe) (now : Nat)
    (r : ServiceStatus) (h : Service.status buf probe now = .ok r) :
    ((r.uptime : ℤ) =
      max 0 ((now : ℤ) + (DEFAULT_EPOCH : ℤ) - (record_seconds buf : ℤ))) ∧
    (now + DEFAULT_EPOCH < record_seconds buf → r.uptime = 0) := by
  have hu := (status_ok_inv buf probe now r h).2.2.2.2
  constructor
  · rw [hu]
    exact uptimeOf_eq_max now (record_seconds buf)
  · intro hlt
    rw [hu]
    unfold uptimeOf
    rw [if_pos hlt]

/-- C8 (witness): the uptime theorem applied to the all-zero buffer at
time 5, whose record decodes with uptime 5 + DEFAULT_EPOCH. -/
theorem c8_uptime_clamp_witness :
    Service.status (List.replicate 20 0) DownProbe.opened 5 =
      .ok ⟨STATUS_DOWN, none, none, 5 + DEFAULT_EPOCH⟩ ∧
    ((5 + DEFAULT_EPOCH : Nat) : ℤ) =
      max 0 ((5 : ℤ) + (DEFAULT_EPOCH : ℤ) -
        (record_seconds (List.replicate 20 0) : ℤ)) := by
  have h : Service.status (List.replicate 20 0) DownProbe.opened 5 =
      .ok ⟨STATUS_DOWN, none, none, 5 + DEFAULT_EPOCH⟩ := by decide
  exact ⟨h, (c8_uptime_clamp (List.replicate 20 0) DownProbe.opened 5 _ h).1⟩

/-- C9: every named command operation produces exactly one write of exactly
one byte, with the byte given by the documented table; the `up`, `down` and
`hup` aliases coincide with `start`, `stop` and `hangup`. -/
theorem c9_command_bytes :
    commandWrites .start = [[0x75]] ∧ commandWrites Service.up = [[0x75]] ∧
    commandWrites .stop = [[0x64]] ∧ commandWrites Service.down = [[0x64]] ∧
    commandWrites .pause = [[0x70]] ∧ commandWrites .alarm = [[0x61]] ∧
    commandWrites .terminate = [[0x74]] ∧ commandWrites .exit = [[0x78]] ∧
    commandWrites .kill = [[0x6b]] ∧ commandWrites .user1 = [[0x31]] ∧
    commandWrites .user2 = [[0x32]] ∧ commandWrites .quit = [[0x71]] ∧
    commandWrites .interrupt = [[0x69]] ∧ commandWrites .hangup = [[0x68]] ∧
    commandWrites Service.hup = [[0x68]] ∧
    commandWrites .cont = [[0x63]] ∧ commandWrites .once = [[0x6f]] ∧
    (∀ c : Command, (commandWrites c).length = 1 ∧
      ∀ w ∈ commandWrites c, w.length = 1) := by
  refine ⟨rfl, rfl, rfl, rfl, rfl, rfl, rfl, rfl, rfl, rfl, rfl, rfl, rfl,
    rfl, rfl, rfl, rfl, fun c => ?_⟩
  cases c <;> exact ⟨rfl, by decide⟩

/-- C10: constructing a Service from the empty string always fails with
the IndexError from `service[0]`, whatever the base directory; every
successfully constructed handle comes from a non-empty argument and its
control and status paths are fully determined by its service path. -/
theorem c10_nonempty_service :
    (∀ base : Option String, Service.init base "" = .error .indexError) ∧
    (∀ (base : Option String) (s : String) (h : ServiceHandle),
      Service.init base s = .ok h →
        s ≠ "" ∧ h.control = h.service ++ "/supervise/control" ∧
        h.statusFile = h.service ++ "/supervise/status") := by
  constructor
  · intro base
    rfl
  · intro base s h hok
    unfold Service.init at hok
    split at hok
    · simp at hok
    · next c rest heq =>
      have hs : s ≠ "" := by
        intro hempty
        rw [hempty] at heq
        simp at heq
      split at hok
      · simp only [Except.ok.injEq] at hok
        subst hok
        exact ⟨hs, rfl, rfl⟩
      · split at hok
        · simp at hok
        · simp only [Except.ok.injEq] at hok
          subst hok
          exact ⟨hs, rfl, rfl⟩

/-- C10 (witness): the theorem applied at the base /var/service and the
service name t. -/
theorem c10_nonempty_service_witness :
    Service.init (some "/var/service") "" = .error .indexError ∧
    Service.init (some "/var/service") "t" =
      .ok ⟨"/var/service/t", "/var/service/t/supervise/control",
           "/var/service/t/supervise/status"⟩ ∧
    ("t" : String) ≠ "" := by
  refine ⟨c10_nonempty_service.1 (some "/var/service"), by decide, ?_⟩
  exact (c10_nonempty_service.2 (some "/var/service") "t"
    ⟨"/var/service/t", "/var/service/t/supervise/control",
     "/var/service/t/supervise/status"⟩ (by decide)).1
